import Mathlib

/-!
# Portfolio website backend (`server.js`)

A shallow embedding of the Express handlers of `server.js`:
`GET /api/visitors`, `GET /api/notes`, `POST /api/contact` and the
port-retrying `startServer`.

JavaScript values are embedded as `JsVal`.  A number is embedded as the integer
it holds; `+ 1` rounds its result to the nearest double as IEEE-754 does
(`roundDouble`), so counting stops being exact at 2^53.  Fractional numbers
are outside the embedding.  Thrown exceptions are explicit:
a handler is a function from the world to an outcome that is either a value or
a thrown error, together with the new world and the external calls made.
-/

namespace Portfolio

/-! ## JavaScript values -/

/-- A JavaScript value as the handlers can meet it (parsed JSON, environment
strings, results of `+`).  `obj prim` is an object or array; `prim` is the
string it converts to (`"[object Object]"`, or the joined elements of an
array), `none` when the conversion throws a `TypeError` (own non-callable
`toString`/`valueOf`). -/
inductive JsVal where
  | undefined
  | null
  | bool (b : Bool)
  | num (n : Int)
  | nan
  | str (s : String)
  | obj (prim : Option String)
  deriving DecidableEq, Repr

/-- A thrown JavaScript exception. -/
inductive JsErr where
  | typeError
  | syntaxError
  | ioError
  | rejected
  deriving DecidableEq, Repr

/-- JavaScript truthiness (`!!v`). -/
def JsVal.truthy : JsVal → Bool
  | .undefined => false
  | .null => false
  | .bool b => b
  | .num n => n != 0
  | .nan => false
  | .str s => s != ""
  | .obj _ => true

/-- The expression `a || b`. -/
def JsVal.or (a b : JsVal) : JsVal := if a.truthy then a else b

/-- ToString as performed by a template literal `${v}`. -/
def JsVal.toStr : JsVal → Except JsErr String
  | .undefined => .ok "undefined"
  | .null => .ok "null"
  | .bool b => .ok (if b then "true" else "false")
  | .num n => .ok (toString n)
  | .nan => .ok "NaN"
  | .str s => .ok s
  | .obj (some p) => .ok p
  | .obj none => .error .typeError

/-- Round an integer to the nearest IEEE-754 double, ties to the even
significand.  A double holds every integer of magnitude up to 2^53; a larger
magnitude `a` with `2^e ≤ a < 2^(e+1)` is held only when it is a multiple of
`2^(e-52)`. -/
def roundDouble (x : Int) : Int :=
  let a := x.natAbs
  if a ≤ 2 ^ 53 then x
  else
    let u := 2 ^ (Nat.log2 a - 52)
    let q := a / u
    let r := a % u
    let m :=
      if 2 * r < u then q
      else if u < 2 * r then q + 1
      else if q % 2 = 0 then q
      else q + 1
    Int.sign x * ((m * u : Nat) : Int)

/-- The expression `v + 1`: numeric addition (of doubles) for numbers,
booleans and `null`, string concatenation (`v + "1"`) for strings and
objects. -/
def JsVal.plusOne : JsVal → Except JsErr JsVal
  | .undefined => .ok .nan
  | .null => .ok (.num 1)
  | .bool b => .ok (.num (if b then 2 else 1))
  | .num n => .ok (.num (roundDouble (n + 1)))
  | .nan => .ok .nan
  | .str s => .ok (.str (s ++ "1"))
  | .obj (some p) => .ok (.str (p ++ "1"))
  | .obj none => .error .typeError

/-- An environment variable: `process.env.X` is a string or `undefined`. -/
def envVal : Option String → JsVal
  | none => .undefined
  | some s => .str s

/-- Truthiness of `process.env.X`: set to a non-empty string. -/
def envSet (v : Option String) : Bool := (envVal v).truthy

/-- The expression `process.env.X || dflt` for a string default. -/
def envOr (v : Option String) (dflt : String) : String :=
  match v with
  | some s => if s != "" then s else dflt
  | none => dflt

/-! ## The world: stores, configuration, external calls -/

/-- The variables of `process.env` read by `server.js`. -/
structure Env where
  PORT : Option String := none
  SMTP_HOST : Option String := none
  SMTP_PORT : Option String := none
  SMTP_USER : Option String := none
  SMTP_PASS : Option String := none
  RECIPIENT_EMAIL : Option String := none
  FROM_EMAIL : Option String := none
  TWILIO_ACCOUNT_SID : Option String := none
  TWILIO_AUTH_TOKEN : Option String := none
  TWILIO_WHATSAPP_FROM : Option String := none
  TWILIO_DEFAULT_COUNTRY_CODE : Option String := none
  deriving DecidableEq, Repr

/-- Which mongoose models the guarded schema block managed to define
(`let Contact, VisitorCounter, Note; try { ... } catch (e) {}`). -/
structure Models where
  Contact : Bool := true
  VisitorCounter : Bool := true
  Note : Bool := true
  deriving DecidableEq, Repr

/-- A document of the `Contact` collection. -/
structure ContactDoc where
  name : JsVal
  email : JsVal
  phone : JsVal
  message : JsVal
  deriving DecidableEq, Repr

/-- A note record.  `createdAt` is the creation timestamp (added by mongoose
in the database, present in the file only if written there). -/
structure Note where
  subject : String
  title : String
  link : String
  sizeMB : Int
  createdAt : Nat
  deriving DecidableEq, Repr

/-- Content of `data/visitors.json` as `JSON.parse` sees it. -/
inductive CounterFile where
  /-- The text is not JSON: `JSON.parse` throws. -/
  | invalid
  /-- The text is `null`: reading `.count` throws. -/
  | jsonNull
  /-- Any other JSON value; `count` is its `count` property (`undefined` when
  it has none). -/
  | json (count : JsVal)
  deriving DecidableEq, Repr

/-- Content of `data/notes.json` as `JSON.parse` sees it. -/
inductive NotesFile where
  /-- The text is not JSON: `JSON.parse` throws. -/
  | invalid
  /-- A JSON value that is not an array. -/
  | nonArray
  /-- A JSON array of note records, in file order. -/
  | array (notes : List Note)
  deriving DecidableEq, Repr

/-- The state the handlers read and write. -/
structure World where
  /-- The flag `dbEnabled`. -/
  dbEnabled : Bool
  models : Models
  env : Env
  counterFile : CounterFile
  notesFile : NotesFile
  /-- The `count` of the `VisitorCounter` document `global`, if it exists. -/
  dbCounter : Option Int
  dbContacts : List ContactDoc
  dbNotes : List Note
  deriving DecidableEq, Repr

/-- The two mails of the contact handler. -/
inductive MailKind where
  | admin
  | confirmation
  deriving DecidableEq, Repr

/-- The argument of `transport.sendMail`. -/
structure Mail where
  sender : String
  dest : JsVal
  subject : String
  replyTo : JsVal
  text : String
  deriving DecidableEq, Repr

/-- The argument of `client.messages.create`. -/
structure ChatMessage where
  sender : String
  dest : String
  body : String
  deriving DecidableEq, Repr

/-- An external call made by a handler; `ok` tells whether it completed
(`true`) or threw / rejected (`false`). -/
inductive Call where
  | contactCreate (doc : ContactDoc) (ok : Bool)
  | createTransport (ok : Bool)
  | sendMail (kind : MailKind) (mail : Mail) (ok : Bool)
  | twilioClient (ok : Bool)
  | messagesCreate (msg : ChatMessage) (ok : Bool)
  | log (msg : String)
  deriving DecidableEq, Repr

/-- How the external calls of one request turn out (`true`: completes,
`false`: throws or rejects). -/
structure Outcomes where
  readFile : Bool := true
  writeFile : Bool := true
  dbQuery : Bool := true
  contactCreate : Bool := true
  createTransport : Bool := true
  adminMail : Bool := true
  confirmMail : Bool := true
  twilioClient : Bool := true
  messagesCreate : Bool := true
  deriving DecidableEq, Repr

/-! ## Effects -/

/-- Result of running an effectful computation: a value or a thrown error, the
world afterwards, and the external calls made, oldest first. -/
structure Out (α : Type) : Type where
  res : Except JsErr α
  world : World
  calls : List Call

/-- Prefix the calls of an outcome with earlier calls. -/
def Out.prepend {α : Type} (cs : List Call) (r : Out α) : Out α :=
  ⟨r.res, r.world, cs ++ r.calls⟩

/-- An effectful computation over the world. -/
def Eff (α : Type) : Type := World → Out α

/-- Return a value. -/
def Eff.ret {α : Type} (a : α) : Eff α := fun w => ⟨.ok a, w, []⟩

/-- Sequencing; a thrown error skips the rest but keeps world and calls. -/
def Eff.andThen {α β : Type} (m : Eff α) (f : α → Eff β) : Eff β := fun w =>
  match m w with
  | ⟨.ok a, w1, c1⟩ =>
    match f a w1 with
    | ⟨r, w2, c2⟩ => ⟨r, w2, c1 ++ c2⟩
  | ⟨.error e, w1, c1⟩ => ⟨.error e, w1, c1⟩

instance : Monad Eff where
  pure := Eff.ret
  bind := Eff.andThen

/-- Throw. -/
def Eff.throw {α : Type} (e : JsErr) : Eff α := fun w => ⟨.error e, w, []⟩

/-- The statement `try { body } catch (e) { handler }`. -/
def Eff.tryCatch {α : Type} (body : Eff α) (handler : JsErr → Eff α) : Eff α := fun w =>
  match body w with
  | ⟨.ok a, w1, c1⟩ => ⟨.ok a, w1, c1⟩
  | ⟨.error e, w1, c1⟩ =>
    match handler e w1 with
    | ⟨r, w2, c2⟩ => ⟨r, w2, c1 ++ c2⟩

/-- Read the world. -/
def Eff.getWorld : Eff World := fun w => ⟨.ok w, w, []⟩

/-- Replace the world. -/
def Eff.setWorld (w1 : World) : Eff Unit := fun _ => ⟨.ok (), w1, []⟩

/-- Record an external call. -/
def Eff.call (c : Call) : Eff Unit := fun w => ⟨.ok (), w, [c]⟩

/-- Lift a pure computation that may throw. -/
def Eff.lift {α : Type} : Except JsErr α → Eff α
  | .ok a => Eff.ret a
  | .error e => Eff.throw e

/-- An external call with a given outcome: recorded, then completes or throws. -/
def Eff.external (c : Bool → Call) (ok : Bool) (e : JsErr) : Eff Unit := fun w =>
  if ok then ⟨.ok (), w, [c true]⟩ else ⟨.error e, w, [c false]⟩

/-- A synchronous or awaited operation that completes (`ok`) or throws `e`,
without being recorded. -/
def Eff.check (ok : Bool) (e : JsErr) : Eff Unit := fun w =>
  if ok then ⟨.ok (), w, []⟩ else ⟨.error e, w, []⟩

/-! ## HTTP responses -/

/-- A JSON response body. -/
inductive Body where
  /-- The body `{ ok: true }`. -/
  | okTrue
  /-- The body `{ ok: true, note }`. -/
  | okNote (note : String)
  /-- The body `{ ok: false, error }`. -/
  | okFalse (error : String)
  /-- The body `{ count }`. -/
  | count (c : JsVal)
  /-- The body `{ notes }`. -/
  | notes (ns : List Note)
  /-- The body `{ error }`. -/
  | error (msg : String)
  deriving DecidableEq, Repr

/-- An HTTP response: status code and JSON body. -/
structure Response where
  status : Nat
  body : Body
  deriving DecidableEq, Repr

/-- The field `ok` of a response body, if it has one. -/
def Body.ok? : Body → Option Bool
  | .okTrue => some true
  | .okNote _ => some true
  | .okFalse _ => some false
  | _ => none

/-- The field `note` of a response body, if it has one. -/
def Body.note? : Body → Option String
  | .okNote n => some n
  | _ => none

/-- The field `count` of a response body, if it has one. -/
def Body.count? : Body → Option JsVal
  | .count c => some c
  | _ => none


/-! ## `POST /api/contact` -/

/-- The destructured request body
`const { name, email, phone, message } = req.body || {}`; a missing property
is `undefined`. -/
structure ContactBody where
  name : JsVal
  email : JsVal
  phone : JsVal
  message : JsVal
  deriving DecidableEq, Repr

/-- The guard `!name || !email || !phone || !message`. -/
def missingFields (b : ContactBody) : Bool :=
  !b.name.truthy || !b.email.truthy || !b.phone.truthy || !b.message.truthy

/-- The value `toDigits`: `s.replace(/[^\d+]/g, '')` on a string keeps
exactly the characters that are an ASCII digit or `+`. -/
def toDigits (s : String) : String :=
  ⟨s.data.filter (fun c => c.isDigit || c == '+')⟩

/-- The test `s.startsWith('+')`. -/
def startsWithPlus (s : String) : Bool :=
  match s.data with
  | c :: _ => c == '+'
  | [] => false

/-- The value `toE164`:
`toDigits.startsWith('+') ? toDigits : (defaultCc + toDigits)`. -/
def toE164 (defaultCc digits : String) : String :=
  if startsWithPlus digits then digits else defaultCc ++ digits

/-- The method call `v.replace(/[^\d+]/g, '')`: only strings have `replace`;
on any other value the call throws a `TypeError`. -/
def replaceNonPhone : JsVal → Except JsErr String
  | .str s => .ok (toDigits s)
  | _ => .error .typeError

/-- The block `// Persist submission`. -/
def persistContact (o : Outcomes) (b : ContactBody) : Eff Unit :=
  Eff.tryCatch
    (do
      let w ← Eff.getWorld
      if w.dbEnabled && w.models.Contact then
        let doc : ContactDoc := ⟨b.name, b.email, b.phone, b.message⟩
        Eff.external (Call.contactCreate doc) o.contactCreate .rejected
        Eff.setWorld { w with dbContacts := w.dbContacts ++ [doc] }
      else
        pure ())
    (fun _ => Eff.call (.log "Failed to write contact to DB, continuing..."))

/-- The guard `SMTP_HOST && SMTP_PORT && SMTP_USER && SMTP_PASS && RECIPIENT_EMAIL`. -/
def smtpConfigured (env : Env) : Bool :=
  envSet env.SMTP_HOST && envSet env.SMTP_PORT && envSet env.SMTP_USER
    && envSet env.SMTP_PASS && envSet env.RECIPIENT_EMAIL

/-- The guard `sid && token && from` of the chat block. -/
def twilioConfigured (env : Env) : Bool :=
  envSet env.TWILIO_ACCOUNT_SID && envSet env.TWILIO_AUTH_TOKEN
    && envSet env.TWILIO_WHATSAPP_FROM

/-- The block `// Email setup`; the result is the final value of `mailOk`. -/
def sendEmails (o : Outcomes) (b : ContactBody) : Eff Bool := do
  let env := (← Eff.getWorld).env
  if smtpConfigured env then
    Eff.tryCatch
      (do
        Eff.external Call.createTransport o.createTransport .rejected
        let sender := envOr env.FROM_EMAIL (envOr env.SMTP_USER "")
        let name ← Eff.lift b.name.toStr
        let email ← Eff.lift b.email.toStr
        let phone ← Eff.lift b.phone.toStr
        let message ← Eff.lift b.message.toStr
        Eff.external
          (Call.sendMail .admin
            { sender := sender
              dest := envVal env.RECIPIENT_EMAIL
              subject := "New contact from " ++ name
              replyTo := b.email
              text := "Name: " ++ name ++ "\nEmail: " ++ email ++ "\nPhone: " ++ phone
                ++ "\n\n" ++ message })
          o.adminMail .rejected
        Eff.external
          (Call.sendMail .confirmation
            { sender := sender
              dest := b.email
              subject := "Thanks for contacting Prashant Sir"
              replyTo := .undefined
              text := "Hello " ++ name
                ++ ",\n\nThank you for reaching out! Prashant Sir will contact you soon."
                ++ "\n\nYour message:\n" ++ message ++ "\n\nRegards,\nPrashant Sir" })
          o.confirmMail .rejected
        pure true)
      (fun _ => do
        Eff.call (.log "Email error:")
        pure false)
  else
    pure false

/-- The block `// WhatsApp via Twilio (optional)`; the result is the final
value of `waOk`. -/
def sendWhatsApp (o : Outcomes) (b : ContactBody) : Eff Bool :=
  Eff.tryCatch
    (do
      let env := (← Eff.getWorld).env
      let defaultCc := envOr env.TWILIO_DEFAULT_COUNTRY_CODE "+91"
      if twilioConfigured env then
        Eff.external Call.twilioClient o.twilioClient .rejected
        let digits ← Eff.lift (replaceNonPhone (b.phone.or (.str "")))
        let e164 := toE164 defaultCc digits
        let name ← Eff.lift b.name.toStr
        Eff.external
          (Call.messagesCreate
            { sender := envOr env.TWILIO_WHATSAPP_FROM ""
              dest := "whatsapp:" ++ e164
              body := "Hello " ++ name
                ++ ", thank you for contacting Prashant Sir! He will reach out to you soon." })
          o.messagesCreate .rejected
        pure true
      else
        pure false)
    (fun _ => do
      Eff.call (.log "WhatsApp error:")
      pure false)

/-- The handler `app.post('/api/contact', ...)`. -/
def apiContact (o : Outcomes) (b : ContactBody) : Eff Response := do
  if missingFields b then
    pure ⟨400, .okFalse "Missing fields"⟩
  else
    persistContact o b
    let mailOk ← sendEmails o b
    let waOk ← sendWhatsApp o b
    if !mailOk && !waOk then
      pure ⟨200, .okNote "Saved. Email/WhatsApp not configured."⟩
    else
      pure ⟨200, .okTrue⟩


/-! ## `GET /api/visitors` -/

/-- What `JSON.stringify` followed by `JSON.parse` makes of a property value:
`NaN` is written as `null`. -/
def JsVal.jsonify : JsVal → JsVal
  | .nan => .null
  | v => v

/-- The helper `readCount`:
`try { return JSON.parse(fs.readFileSync(counterFile, 'utf8')).count || 0; } catch { return 0; }`. -/
def readCount (o : Outcomes) : Eff JsVal :=
  Eff.tryCatch
    (do
      Eff.check o.readFile .ioError
      match (← Eff.getWorld).counterFile with
      | .invalid => Eff.throw .syntaxError
      | .jsonNull => Eff.throw .typeError
      | .json count => pure (count.or (.num 0)))
    (fun _ => pure (.num 0))

/-- The helper `writeCount`:
`fs.writeFileSync(counterFile, JSON.stringify({ count: n }, null, 2))`. -/
def writeCount (o : Outcomes) (n : JsVal) : Eff Unit := do
  Eff.check o.writeFile .ioError
  let w ← Eff.getWorld
  Eff.setWorld { w with counterFile := .json n.jsonify }

/-- The query `VisitorCounter.findOneAndUpdate({ _id: 'global' },
{ $inc: { count: 1 } }, { new: true, upsert: true })`; the result is
`doc.count` of the updated document.  The increment is done by the database,
atomically and exactly. -/
def findOneAndUpdate (o : Outcomes) : Eff Int := do
  Eff.check o.dbQuery .rejected
  let w ← Eff.getWorld
  let n := w.dbCounter.getD 0 + 1
  Eff.setWorld { w with dbCounter := some n }
  pure n

/-- The database branch of the visitor handler. -/
def visitorsDb (o : Outcomes) : Eff Response := do
  let count ← findOneAndUpdate o
  pure ⟨200, .count (.num count)⟩

/-- The flat-file branch of the visitor handler:
`const current = readCount() + 1; writeCount(current); res.json({ count: current })`. -/
def visitorsFile (o : Outcomes) : Eff Response := do
  let current ← Eff.lift (← readCount o).plusOne
  writeCount o current
  pure ⟨200, .count current.jsonify⟩

/-- The `catch` block of the visitor handler. -/
def visitorsFailed : JsErr → Eff Response :=
  fun _ => pure ⟨500, .error "Failed to update counter"⟩

/-- The handler `app.get('/api/visitors', ...)`. -/
def apiVisitors (o : Outcomes) : Eff Response :=
  Eff.tryCatch
    (do
      let w ← Eff.getWorld
      if w.dbEnabled && w.models.VisitorCounter then
        visitorsDb o
      else
        visitorsFile o)
    visitorsFailed

/-- Sequential `GET /api/visitors` requests, one per element of `os` (the
outcomes of its I/O): the responses in order, and the world afterwards. -/
def visitorsRun : List Outcomes → World → List (Except JsErr Response) × World
  | [], w => ([], w)
  | o :: os, w =>
    let r := apiVisitors o w
    let rest := visitorsRun os r.world
    (r.res :: rest.1, rest.2)

/-! ### Concurrent requests

Node.js runs a handler without interruption up to its next `await`; another
request can only run while the handler is suspended there.  The database
branch of the visitor handler has one `await` (the query); the flat-file branch
has none (`readFileSync` and `writeFileSync` are synchronous). -/

/-- Progress of one `GET /api/visitors` request. -/
inductive ReqState where
  /-- Received, handler not yet entered. -/
  | start
  /-- Suspended at `await VisitorCounter.findOneAndUpdate(...)`. -/
  | awaitingDb
  /-- Finished with this outcome. -/
  | done (r : Except JsErr Response)

/-- One uninterrupted turn of a visitor request. -/
def visitorsTurn (o : Outcomes) (s : ReqState) (w : World) : ReqState × World :=
  match s with
  | .start =>
    if w.dbEnabled && w.models.VisitorCounter then
      (.awaitingDb, w)
    else
      let r := Eff.tryCatch (visitorsFile o) visitorsFailed w
      (.done r.res, r.world)
  | .awaitingDb =>
    let r := Eff.tryCatch (visitorsDb o) visitorsFailed w
    (.done r.res, r.world)
  | .done r => (.done r, w)

/-- Two visitor requests in flight over one world. -/
structure Sys where
  world : World
  reqA : ReqState
  reqB : ReqState

/-- Run one turn of request A (`pickA = true`) or of request B. -/
def Sys.turn (oa ob : Outcomes) (s : Sys) (pickA : Bool) : Sys :=
  if pickA then
    let r := visitorsTurn oa s.reqA s.world
    { s with reqA := r.1, world := r.2 }
  else
    let r := visitorsTurn ob s.reqB s.world
    { s with reqB := r.1, world := r.2 }

/-- Run a schedule: the order in which the event loop gives the two requests
their turns. -/
def Sys.run (oa ob : Outcomes) (sched : List Bool) (s : Sys) : Sys :=
  sched.foldl (Sys.turn oa ob) s

/-! ## `GET /api/notes` -/

/-- The query order `.sort({ createdAt: -1 })`: newest first. -/
def newestFirst (ns : List Note) : List Note :=
  ns.insertionSort (fun a b => b.createdAt ≤ a.createdAt)

/-- The handler `app.get('/api/notes', ...)`. -/
def apiNotes (o : Outcomes) : Eff Response :=
  Eff.tryCatch
    (do
      let w ← Eff.getWorld
      if w.dbEnabled && w.models.Note then
        Eff.check o.dbQuery .rejected
        pure ⟨200, .notes (newestFirst w.dbNotes)⟩
      else
        Eff.check o.readFile .ioError
        match w.notesFile with
        | .invalid => Eff.throw .syntaxError
        | .nonArray => pure ⟨200, .notes []⟩
        | .array ns => pure ⟨200, .notes ns⟩)
    (fun _ => pure ⟨500, .error "Failed to fetch notes"⟩)

/-! ## `startServer` -/

/-- The initial port `let PORT = process.env.PORT || 3000`. -/
def PORT (env : Env) : JsVal := (envVal env.PORT).or (.num 3000)

/-- What `app.listen(port)` reports. -/
inductive ListenResult where
  | listening
  | addrInUse
  | otherError
  deriving DecidableEq, Repr

/-- The function `startServer`: the ports it attempts, in order.  On
`EADDRINUSE` it calls itself with `port + 1`; `fuel` bounds the number of
attempts followed. -/
def startServer (listen : JsVal → ListenResult) : Nat → JsVal → List JsVal
  | 0, _ => []
  | fuel + 1, port =>
    port ::
      match listen port with
      | .addrInUse =>
        match port.plusOne with
        | .ok next => startServer listen fuel next
        | .error _ => []
      | _ => []


/-! ## Observations used in the statements -/

/-- A field is absent (`undefined`) or the empty string. -/
def JsVal.absentOrEmpty (v : JsVal) : Prop := v = .undefined ∨ v = .str ""

/-- Whether a call is a `Contact.create` call. -/
def Call.isContactCreate : Call → Bool
  | .contactCreate _ _ => true
  | _ => false

/-- Whether a call is a `transport.sendMail` call. -/
def Call.isSendMail : Call → Bool
  | .sendMail _ _ _ => true
  | _ => false

/-- Whether a call is a `client.messages.create` call. -/
def Call.isMessagesCreate : Call → Bool
  | .messagesCreate _ _ => true
  | _ => false

/-- Whether a call is a `sendMail` call that threw. -/
def Call.isFailedSendMail : Call → Bool
  | .sendMail _ _ ok => !ok
  | _ => false

/-- The mail of the given kind was sent and `sendMail` completed without
exception. -/
def mailCompleted (k : MailKind) (calls : List Call) : Bool :=
  calls.any fun c =>
    match c with
    | .sendMail k1 _ ok => k1 == k && ok
    | _ => false

/-- The chat message was sent and `messages.create` completed without
exception. -/
def chatCompleted (calls : List Call) : Bool :=
  calls.any fun c =>
    match c with
    | .messagesCreate _ ok => ok
    | _ => false

/-- The email channel succeeded: both mails completed. -/
def emailSucceeded (calls : List Call) : Bool :=
  mailCompleted .admin calls && mailCompleted .confirmation calls

/-- The template literal `${v}` does not throw. -/
def JsVal.stringifiable (v : JsVal) : Bool :=
  match v.toStr with
  | .ok _ => true
  | .error _ => false

/-- The value is a string (so it has the method `replace`). -/
def JsVal.isString : JsVal → Bool
  | .str _ => true
  | _ => false

/-- The email channel works for a request: the five SMTP settings are set,
the transport is created, the four fields can be written into the mail
text, and both `sendMail` calls complete. -/
def emailWorks (o : Outcomes) (env : Env) (b : ContactBody) : Bool :=
  smtpConfigured env && o.createTransport
    && b.name.stringifiable && b.email.stringifiable && b.phone.stringifiable
    && b.message.stringifiable && o.adminMail && o.confirmMail

/-- The chat channel works for a request: the three Twilio settings are set,
the client is created, `phone || ''` is a string, the name can be written
into the message, and `messages.create` completes. -/
def chatWorks (o : Outcomes) (env : Env) (b : ContactBody) : Bool :=
  twilioConfigured env && o.twilioClient && (b.phone.or (.str "")).isString
    && b.name.stringifiable && o.messagesCreate

/-- A world in flat-file mode on a cold start: no database, nothing
configured, counter file `{ count: 0 }`, notes file `[]`. -/
def coldFlatFile : World :=
  { dbEnabled := false
    models := {}
    env := {}
    counterFile := .json (.num 0)
    notesFile := .array []
    dbCounter := none
    dbContacts := []
    dbNotes := [] }

/-- The submission `{name:"A", email:"a@x.com", phone:"9999999999", message:"hi"}`. -/
def sampleSubmission : ContactBody :=
  ⟨.str "A", .str "a@x.com", .str "9999999999", .str "hi"⟩


/-- A flat-file world with the chat channel configured and no SMTP setting. -/
def chatOnly : World :=
  { coldFlatFile with
    env :=
      { TWILIO_ACCOUNT_SID := some "AC0123"
        TWILIO_AUTH_TOKEN := some "token"
        TWILIO_WHATSAPP_FROM := some "whatsapp:+14155238886" } }

/-- A flat-file world with the five SMTP settings set and no chat setting. -/
def smtpOnly : World :=
  { coldFlatFile with
    env :=
      { SMTP_HOST := some "smtp.example.com"
        SMTP_PORT := some "465"
        SMTP_USER := some "user@example.com"
        SMTP_PASS := some "secret"
        RECIPIENT_EMAIL := some "admin@example.com" } }

/-- A flat-file world whose counter file is not valid JSON. -/
def corruptCounter : World := { coldFlatFile with counterFile := .invalid }

/-- The states two concurrent flat-file visitor requests can be in when they
start from a counter file holding `c`: none has run, one has run and answered
`c + 1`, or both have run and answered `c + 1` and `c + 2` in the order they
ran. -/
def Sys.inv (c : Int) (s : Sys) : Prop :=
  s.world.dbEnabled = false ∧
    ((s.world.counterFile = .json (.num c) ∧ s.reqA = .start ∧ s.reqB = .start)
    ∨ (s.world.counterFile = .json (.num (c + 1))
        ∧ s.reqA = .done (.ok ⟨200, .count (.num (c + 1))⟩) ∧ s.reqB = .start)
    ∨ (s.world.counterFile = .json (.num (c + 1))
        ∧ s.reqA = .start ∧ s.reqB = .done (.ok ⟨200, .count (.num (c + 1))⟩))
    ∨ (s.world.counterFile = .json (.num (c + 1 + 1))
        ∧ s.reqA = .done (.ok ⟨200, .count (.num (c + 1))⟩)
        ∧ s.reqB = .done (.ok ⟨200, .count (.num (c + 1 + 1))⟩))
    ∨ (s.world.counterFile = .json (.num (c + 1 + 1))
        ∧ s.reqA = .done (.ok ⟨200, .count (.num (c + 1 + 1))⟩)
        ∧ s.reqB = .done (.ok ⟨200, .count (.num (c + 1))⟩)))

/-- A string of the form `+` followed only by ASCII digits. -/
def isPlusDigits (s : String) : Bool :=
  match s.data with
  | c :: rest => c == '+' && rest.all Char.isDigit
  | [] => false

/-- A note created at time 1. -/
def olderNote : Note := ⟨"Physics", "Older note", "/notes/older.pdf", 1, 1⟩

/-- A note created at time 2, after `olderNote`. -/
def newerNote : Note := ⟨"Physics", "Newer note", "/notes/newer.pdf", 1, 2⟩

/-- A flat-file world whose notes file lists the older note first. -/
def notesOldestFirst : World :=
  { coldFlatFile with notesFile := .array [olderNote, newerNote] }

/-- A listener on which only port `"3000"` (as read from the environment) is
already in use. -/
def onlyEnvPortBusy (p : JsVal) : ListenResult :=
  if p = .str "3000" then .addrInUse else .listening

/-! ## Rewriting rules for effects -/

@[simp] theorem Out.prepend_mk {α : Type} (cs : List Call) (r : Except JsErr α) (w : World)
    (c : List Call) : Out.prepend cs ⟨r, w, c⟩ = ⟨r, w, cs ++ c⟩ := rfl

@[simp] theorem Eff.bind_eq {α β : Type} (m : Eff α) (f : α → Eff β) :
    (m >>= f) = Eff.andThen m f := rfl

@[simp] theorem Eff.pure_eq {α : Type} (a : α) : (pure a : Eff α) = Eff.ret a := rfl

theorem Eff.andThen_apply {α β : Type} (m : Eff α) (f : α → Eff β) (w : World) :
    Eff.andThen m f w =
      match (m w).res with
      | .ok a => Out.prepend (m w).calls (f a (m w).world)
      | .error e => ⟨.error e, (m w).world, (m w).calls⟩ := by
  unfold Eff.andThen
  rcases m w with ⟨r, w1, c1⟩
  cases r <;> rfl

theorem Eff.tryCatch_apply {α : Type} (m : Eff α) (h : JsErr → Eff α) (w : World) :
    Eff.tryCatch m h w =
      match (m w).res with
      | .ok a => ⟨.ok a, (m w).world, (m w).calls⟩
      | .error e => Out.prepend (m w).calls (h e (m w).world) := by
  unfold Eff.tryCatch
  rcases m w with ⟨r, w1, c1⟩
  cases r <;> rfl

@[simp] theorem Eff.ret_apply {α : Type} (a : α) (w : World) :
    Eff.ret a w = ⟨.ok a, w, []⟩ := rfl

@[simp] theorem Eff.throw_apply {α : Type} (e : JsErr) (w : World) :
    (Eff.throw e : Eff α) w = ⟨.error e, w, []⟩ := rfl

@[simp] theorem Eff.getWorld_apply (w : World) : Eff.getWorld w = ⟨.ok w, w, []⟩ := rfl

@[simp] theorem Eff.setWorld_apply (w1 w : World) :
    Eff.setWorld w1 w = ⟨.ok (), w1, []⟩ := rfl

@[simp] theorem Eff.call_apply (c : Call) (w : World) : Eff.call c w = ⟨.ok (), w, [c]⟩ := rfl

@[simp] theorem Eff.external_true (c : Bool → Call) (e : JsErr) (w : World) :
    Eff.external c true e w = ⟨.ok (), w, [c true]⟩ := rfl

@[simp] theorem Eff.external_false (c : Bool → Call) (e : JsErr) (w : World) :
    Eff.external c false e w = ⟨.error e, w, [c false]⟩ := rfl

@[simp] theorem Eff.check_true (e : JsErr) (w : World) :
    Eff.check true e w = ⟨.ok (), w, []⟩ := rfl

@[simp] theorem Eff.check_false (e : JsErr) (w : World) :
    Eff.check false e w = ⟨.error e, w, []⟩ := rfl

@[simp] theorem Eff.lift_ok {α : Type} (a : α) (w : World) :
    Eff.lift (.ok a) w = ⟨.ok a, w, []⟩ := rfl

@[simp] theorem Eff.lift_error {α : Type} (e : JsErr) (w : World) :
    (Eff.lift (.error e) : Eff α) w = ⟨.error e, w, []⟩ := rfl

/-! ## The blocks of the contact handler -/

theorem mailCompleted_append (k : MailKind) (c1 c2 : List Call) :
    mailCompleted k (c1 ++ c2) = (mailCompleted k c1 || mailCompleted k c2) := by
  simp [mailCompleted, List.any_append]

theorem chatCompleted_append (c1 c2 : List Call) :
    chatCompleted (c1 ++ c2) = (chatCompleted c1 || chatCompleted c2) := by
  simp [chatCompleted, List.any_append]

theorem mailCompleted_of_no_sendMail (k : MailKind) (c : List Call)
    (h : c.any Call.isSendMail = false) : mailCompleted k c = false := by
  induction c with
  | nil => rfl
  | cons x xs ih =>
    rw [List.any_cons, Bool.or_eq_false_iff] at h
    have ih1 := ih h.2
    cases x <;> first
      | exact ih1
      | exact Bool.noConfusion h.1

theorem chatCompleted_of_no_messagesCreate (c : List Call)
    (h : c.any Call.isMessagesCreate = false) : chatCompleted c = false := by
  induction c with
  | nil => rfl
  | cons x xs ih =>
    rw [List.any_cons, Bool.or_eq_false_iff] at h
    have ih1 := ih h.2
    cases x <;> first
      | exact ih1
      | exact Bool.noConfusion h.1

/-- The persistence block never throws, makes no notification call, and
changes nothing but the contact collection. -/
theorem persistContact_run (o : Outcomes) (b : ContactBody) (w : World) :
    ∃ w1 c, persistContact o b w = ⟨.ok (), w1, c⟩
      ∧ w1.env = w.env
      ∧ c.any Call.isSendMail = false
      ∧ c.any Call.isMessagesCreate = false
      ∧ ((w.dbEnabled && w.models.Contact) = false → w1 = w ∧ c = [])
      ∧ ((w.dbEnabled && w.models.Contact) = true → o.contactCreate = true →
          w1 = { w with dbContacts := w.dbContacts ++ [⟨b.name, b.email, b.phone, b.message⟩] })
      := by
  simp only [persistContact, Eff.bind_eq, Eff.pure_eq]
  cases hd : (w.dbEnabled && w.models.Contact) <;> cases hc : o.contactCreate
  all_goals simp only [Eff.andThen_apply, Eff.tryCatch_apply, hd, hc, Eff.getWorld_apply,
    Eff.external_true, Eff.external_false, Eff.setWorld_apply, Eff.ret_apply, Eff.call_apply,
    Out.prepend_mk, if_true, List.nil_append, List.append_nil, List.cons_append,
    List.singleton_append, Bool.false_eq_true, if_false]
  all_goals refine ⟨_, _, rfl, rfl, rfl, rfl, ?_, ?_⟩
  all_goals intros
  all_goals first
    | rfl
    | exact ⟨rfl, rfl⟩
    | contradiction

/-- The email block never throws, leaves the world alone, and returns `true`
exactly when it is configured and both mails completed. -/
theorem sendEmails_run (o : Outcomes) (b : ContactBody) (w : World) :
    ∃ ok c, sendEmails o b w = ⟨.ok ok, w, c⟩
      ∧ ok = (smtpConfigured w.env && mailCompleted .admin c && mailCompleted .confirmation c)
      ∧ (smtpConfigured w.env = false → c = [])
      ∧ (c.any Call.isFailedSendMail = true → ok = false)
      ∧ c.any Call.isContactCreate = false
      ∧ c.any Call.isMessagesCreate = false := by
  simp only [sendEmails, Eff.bind_eq, Eff.pure_eq]
  cases hcfg : smtpConfigured w.env
  · exact ⟨false, [], by simp [Eff.andThen_apply, hcfg], rfl, fun _ => rfl, fun _ => rfl, rfl, rfl⟩
  · cases hn : b.name.toStr <;> cases he : b.email.toStr <;> cases hp : b.phone.toStr
      <;> cases hm : b.message.toStr <;> cases ht : o.createTransport
      <;> cases ha : o.adminMail <;> cases hc : o.confirmMail
    all_goals simp only [Eff.andThen_apply, Eff.tryCatch_apply, hcfg, hn, he, hp, hm, ht, ha, hc,
      Eff.getWorld_apply, Eff.external_true, Eff.external_false, Eff.lift_ok, Eff.lift_error,
      Eff.ret_apply, Eff.call_apply, Out.prepend_mk, if_true, List.nil_append, List.append_nil,
      List.cons_append, List.singleton_append]
    all_goals first
      | exact ⟨_, _, rfl, rfl, fun h => Bool.noConfusion h, fun _ => rfl, rfl, rfl⟩
      | exact ⟨_, _, rfl, rfl, fun h => Bool.noConfusion h, fun h => Bool.noConfusion h, rfl, rfl⟩

/-- The chat block never throws, leaves the world alone, and returns `true`
exactly when the chat message completed. -/
theorem sendWhatsApp_run (o : Outcomes) (b : ContactBody) (w : World) :
    ∃ ok c, sendWhatsApp o b w = ⟨.ok ok, w, c⟩
      ∧ ok = chatCompleted c
      ∧ (twilioConfigured w.env = false → c = [])
      ∧ c.any Call.isContactCreate = false
      ∧ c.any Call.isSendMail = false := by
  simp only [sendWhatsApp, Eff.bind_eq, Eff.pure_eq]
  cases hcfg : twilioConfigured w.env
  · exact ⟨false, [], by simp [Eff.andThen_apply, Eff.tryCatch_apply, hcfg], rfl, fun _ => rfl,
      rfl, rfl⟩
  · cases hn : b.name.toStr <;> cases hp : replaceNonPhone (b.phone.or (.str ""))
      <;> cases ht : o.twilioClient <;> cases hc : o.messagesCreate
    all_goals simp only [Eff.andThen_apply, Eff.tryCatch_apply, hcfg, hn, hp, ht, hc,
      Eff.getWorld_apply, Eff.external_true, Eff.external_false, Eff.lift_ok, Eff.lift_error,
      Eff.ret_apply, Eff.call_apply, Out.prepend_mk, if_true, List.nil_append, List.append_nil,
      List.cons_append, List.singleton_append]
    all_goals exact ⟨_, _, rfl, rfl, fun h => Bool.noConfusion h, rfl, rfl⟩


/-- The value of `mailOk` in terms of the configuration and the outcomes of
the external calls. -/
theorem sendEmails_res (o : Outcomes) (b : ContactBody) (w : World) :
    (sendEmails o b w).res = .ok (emailWorks o w.env b) := by
  simp only [sendEmails, emailWorks, JsVal.stringifiable, Eff.bind_eq, Eff.pure_eq]
  cases hcfg : smtpConfigured w.env
  · simp only [Eff.andThen_apply, Eff.getWorld_apply, hcfg, Bool.false_eq_true, if_false,
      Eff.ret_apply, Out.prepend_mk, Bool.false_and]
  · cases hn : b.name.toStr <;> cases he : b.email.toStr <;> cases hp : b.phone.toStr
      <;> cases hm : b.message.toStr <;> cases ht : o.createTransport
      <;> cases ha : o.adminMail <;> cases hc : o.confirmMail
    all_goals simp only [Eff.andThen_apply, Eff.tryCatch_apply, hcfg, hn, he, hp, hm, ht, ha, hc,
      Eff.getWorld_apply, Eff.external_true, Eff.external_false, Eff.lift_ok, Eff.lift_error,
      Eff.ret_apply, Eff.call_apply, Out.prepend_mk, if_true]
    all_goals rfl

/-- The value of `waOk` in terms of the configuration and the outcomes of the
external calls. -/
theorem sendWhatsApp_res (o : Outcomes) (b : ContactBody) (w : World) :
    (sendWhatsApp o b w).res = .ok (chatWorks o w.env b) := by
  simp only [sendWhatsApp, chatWorks, JsVal.stringifiable, Eff.bind_eq, Eff.pure_eq]
  cases hcfg : twilioConfigured w.env
  · simp only [Eff.andThen_apply, Eff.tryCatch_apply, Eff.getWorld_apply, hcfg,
      Bool.false_eq_true, if_false, Eff.ret_apply, Out.prepend_mk, Bool.false_and]
  · cases hph : b.phone.or (.str "") <;> cases hn : b.name.toStr
      <;> cases ht : o.twilioClient <;> cases hc : o.messagesCreate
    all_goals simp only [Eff.andThen_apply, Eff.tryCatch_apply, hcfg, hph, hn, ht, hc,
      replaceNonPhone, JsVal.isString,
      Eff.getWorld_apply, Eff.external_true, Eff.external_false, Eff.lift_ok, Eff.lift_error,
      Eff.ret_apply, Eff.call_apply, Out.prepend_mk, if_true]
    all_goals rfl

/-- The contact handler on a submission that passes validation: it never
throws, and its response is decided by the results of the two channels. -/
theorem apiContact_run (o : Outcomes) (b : ContactBody) (w : World)
    (hmiss : missingFields b = false) :
    ∃ w1 c1 c2 c3 mailOk waOk,
      persistContact o b w = ⟨.ok (), w1, c1⟩
      ∧ sendEmails o b w1 = ⟨.ok mailOk, w1, c2⟩
      ∧ sendWhatsApp o b w1 = ⟨.ok waOk, w1, c3⟩
      ∧ apiContact o b w =
          ⟨.ok (if !mailOk && !waOk then ⟨200, .okNote "Saved. Email/WhatsApp not configured."⟩
                else ⟨200, .okTrue⟩), w1, c1 ++ (c2 ++ c3)⟩
      ∧ emailSucceeded (c1 ++ (c2 ++ c3)) = mailOk
      ∧ chatCompleted (c1 ++ (c2 ++ c3)) = waOk
      ∧ mailOk = emailWorks o w.env b
      ∧ waOk = chatWorks o w.env b := by
  obtain ⟨w1, c1, h1, henv, h1m, h1c, -, -⟩ := persistContact_run o b w
  obtain ⟨ok2, c2, h2, h2ok, h2nil, -, -, h2c⟩ := sendEmails_run o b w1
  obtain ⟨ok3, c3, h3, h3ok, -, -, h3m⟩ := sendWhatsApp_run o b w1
  have hmail : ok2 = emailWorks o w.env b := by
    have h := sendEmails_res o b w1
    rw [h2, henv] at h
    injection h
  have hchat : ok3 = chatWorks o w.env b := by
    have h := sendWhatsApp_res o b w1
    rw [h3, henv] at h
    injection h
  refine ⟨w1, c1, c2, c3, ok2, ok3, h1, h2, h3, ?_, ?_, ?_, hmail, hchat⟩
  · simp only [apiContact, hmiss, Eff.bind_eq, Eff.pure_eq, Eff.andThen_apply, h1, h2, h3,
      Out.prepend_mk, Bool.false_eq_true, if_false]
    cases ok2 <;> cases ok3 <;> simp
  · have e1 : ∀ k, mailCompleted k (c1 ++ (c2 ++ c3)) = mailCompleted k c2 := by
      intro k
      rw [mailCompleted_append, mailCompleted_append, mailCompleted_of_no_sendMail k c1 h1m,
        mailCompleted_of_no_sendMail k c3 h3m, Bool.false_or, Bool.or_false]
    rw [emailSucceeded, e1, e1, h2ok]
    cases hcfg : smtpConfigured w1.env
    · rw [h2nil hcfg]
      rfl
    · simp
  · rw [chatCompleted_append, chatCompleted_append, chatCompleted_of_no_messagesCreate c1 h1c,
      chatCompleted_of_no_messagesCreate c2 h2c, Bool.false_or, Bool.false_or, h3ok]

/-! ## Claims about `POST /api/contact` -/

/-- C1: when at least one of name, email, phone, message is absent or empty,
the contact handler answers 400 with `{ ok: false, error: "Missing fields" }`
and makes no external call at all (so no `Contact.create`, no `sendMail`, no
`messages.create`) and leaves every store unchanged. -/
theorem contact_missing_field_rejected (o : Outcomes) (b : ContactBody) (w : World)
    (h : b.name.absentOrEmpty ∨ b.email.absentOrEmpty ∨ b.phone.absentOrEmpty
      ∨ b.message.absentOrEmpty) :
    apiContact o b w = ⟨.ok ⟨400, .okFalse "Missing fields"⟩, w, []⟩ := by
  have hmiss : missingFields b = true := by
    rcases h with h | h | h | h <;> rcases h with h | h <;>
      simp [missingFields, h, JsVal.truthy]
  simp only [apiContact, hmiss, if_true, Eff.pure_eq, Eff.ret_apply]

/-- Witness for C1: the body `{ email: "a@x.com", phone: "1", message: "hi" }`
without a name is rejected. -/
theorem contact_missing_field_rejected_witness :
    apiContact {} ⟨.undefined, .str "a@x.com", .str "1", .str "hi"⟩ coldFlatFile
      = ⟨.ok ⟨400, .okFalse "Missing fields"⟩, coldFlatFile, []⟩ :=
  contact_missing_field_rejected {} ⟨.undefined, .str "a@x.com", .str "1", .str "hi"⟩
    coldFlatFile (Or.inl (Or.inl rfl))

/-- C2: when the four fields are all non-empty (truthy), then for every store
mode, every configuration and every outcome of the persistence call, the mail
sends and the chat send, the contact handler returns (no exception escapes)
a response with status 200 and `ok: true`.  The body is plain `{ ok: true }`
exactly when the email channel works (configured, transport and both sends
complete) or the chat channel works (configured, client and send complete),
and `{ ok: true, note: "Saved. Email/WhatsApp not configured." }` when
neither does; and a channel works exactly when the handler's own calls show
it: both mails completed, respectively the chat message completed. -/
theorem contact_valid_accepted (o : Outcomes) (b : ContactBody) (w : World)
    (hn : b.name.truthy = true) (he : b.email.truthy = true)
    (hp : b.phone.truthy = true) (hm : b.message.truthy = true) :
    ∃ body, (apiContact o b w).res = .ok ⟨200, body⟩
      ∧ body.ok? = some true
      ∧ body =
          (if emailWorks o w.env b || chatWorks o w.env b
           then Body.okTrue
           else Body.okNote "Saved. Email/WhatsApp not configured.")
      ∧ body =
          (if emailSucceeded (apiContact o b w).calls || chatCompleted (apiContact o b w).calls
           then Body.okTrue
           else Body.okNote "Saved. Email/WhatsApp not configured.")
      ∧ emailSucceeded (apiContact o b w).calls = emailWorks o w.env b
      ∧ chatCompleted (apiContact o b w).calls = chatWorks o w.env b := by
  have hmiss : missingFields b = false := by simp [missingFields, hn, he, hp, hm]
  obtain ⟨w1, c1, c2, c3, mailOk, waOk, -, -, -, hrun, hmail, hchat, hmw, hcw⟩ :=
    apiContact_run o b w hmiss
  rw [hrun]
  dsimp only
  rw [hmail, hchat, hmw, hcw]
  cases emailWorks o w.env b <;> cases chatWorks o w.env b <;>
    exact ⟨_, rfl, rfl, rfl, rfl, rfl, rfl⟩

/-- Witness for C2: with the chat channel configured and working and no SMTP
setting, the sample submission is answered with plain `{ ok: true }`; with
the chat send throwing it is answered with the advisory note. -/
theorem contact_valid_accepted_witness :
    (apiContact {} sampleSubmission chatOnly).res = .ok ⟨200, .okTrue⟩
      ∧ (apiContact { messagesCreate := false } sampleSubmission chatOnly).res
          = .ok ⟨200, .okNote "Saved. Email/WhatsApp not configured."⟩ := by
  obtain ⟨body1, hres1, -, hbody1, -, -, -⟩ :=
    contact_valid_accepted {} sampleSubmission chatOnly rfl rfl rfl rfl
  obtain ⟨body2, hres2, -, hbody2, -, -, -⟩ :=
    contact_valid_accepted { messagesCreate := false } sampleSubmission chatOnly rfl rfl rfl rfl
  rw [hres1, hres2, hbody1, hbody2]
  exact ⟨rfl, rfl⟩

/-- In database mode, when `Contact.create` completes, a valid submission is
appended to the contact collection. -/
theorem contact_db_stored (o : Outcomes) (b : ContactBody) (w : World)
    (hmiss : missingFields b = false)
    (hmode : (w.dbEnabled && w.models.Contact) = true) (hc : o.contactCreate = true) :
    (apiContact o b w).world.dbContacts
      = w.dbContacts ++ [⟨b.name, b.email, b.phone, b.message⟩] := by
  obtain ⟨w1, c1, c2, c3, mailOk, waOk, h1, -, -, hrun, -, -, -, -⟩ :=
    apiContact_run o b w hmiss
  obtain ⟨w2, c4, h2, -, -, -, -, hdb⟩ := persistContact_run o b w
  rw [h1] at h2
  injection h2 with _ hw _
  rw [hrun, hw, hdb hmode hc]

/-- C3 (evaluation at the failing input): in flat-file mode with nothing
configured, the submission `{name:"A", email:"a@x.com", phone:"9999999999",
message:"hi"}` is answered with the note "Saved. Email/WhatsApp not
configured.", yet the handler made no call and the world is unchanged: the
record is stored neither in the database nor in any file. -/
theorem contact_flatfile_not_stored :
    apiContact {} sampleSubmission coldFlatFile
      = ⟨.ok ⟨200, .okNote "Saved. Email/WhatsApp not configured."⟩, coldFlatFile, []⟩ := by
  rfl

/-- C8: the email block of the contact handler always returns (no exception
escapes it), and its result `mailOk` is `true` exactly when all five of
SMTP_HOST, SMTP_PORT, SMTP_USER, SMTP_PASS, RECIPIENT_EMAIL are set and both
the admin mail and the confirmation mail complete without exception: stated
on the outcomes of the external calls (transport created, fields written
into the text, both sends complete) and on the calls the block made (both
mails completed).  When one of the five is not set no `sendMail` call is
made; and a `sendMail` call that threw leaves `mailOk = false`. -/
theorem email_channel_success_iff (o : Outcomes) (b : ContactBody) (w : World) :
    ∃ mailOk calls, sendEmails o b w = ⟨.ok mailOk, w, calls⟩
      ∧ (mailOk = true ↔
          (envSet w.env.SMTP_HOST = true ∧ envSet w.env.SMTP_PORT = true
            ∧ envSet w.env.SMTP_USER = true ∧ envSet w.env.SMTP_PASS = true
            ∧ envSet w.env.RECIPIENT_EMAIL = true)
          ∧ o.createTransport = true
          ∧ (b.name.stringifiable = true ∧ b.email.stringifiable = true
            ∧ b.phone.stringifiable = true ∧ b.message.stringifiable = true)
          ∧ o.adminMail = true ∧ o.confirmMail = true)
      ∧ (mailOk = true ↔
          (envSet w.env.SMTP_HOST = true ∧ envSet w.env.SMTP_PORT = true
            ∧ envSet w.env.SMTP_USER = true ∧ envSet w.env.SMTP_PASS = true
            ∧ envSet w.env.RECIPIENT_EMAIL = true)
          ∧ mailCompleted .admin calls = true ∧ mailCompleted .confirmation calls = true)
      ∧ (¬ (envSet w.env.SMTP_HOST = true ∧ envSet w.env.SMTP_PORT = true
            ∧ envSet w.env.SMTP_USER = true ∧ envSet w.env.SMTP_PASS = true
            ∧ envSet w.env.RECIPIENT_EMAIL = true) → calls.any Call.isSendMail = false)
      ∧ (calls.any Call.isFailedSendMail = true → mailOk = false) := by
  obtain ⟨ok, c, hrun, hok, hnil, hfail, -, -⟩ := sendEmails_run o b w
  have hcfg : smtpConfigured w.env = true ↔
      (envSet w.env.SMTP_HOST = true ∧ envSet w.env.SMTP_PORT = true
        ∧ envSet w.env.SMTP_USER = true ∧ envSet w.env.SMTP_PASS = true
        ∧ envSet w.env.RECIPIENT_EMAIL = true) := by
    simp [smtpConfigured, and_assoc]
  have hres : ok = emailWorks o w.env b := by
    have h := sendEmails_res o b w
    rw [hrun] at h
    injection h
  refine ⟨ok, c, hrun, ?_, ?_, ?_, hfail⟩
  · rw [hres, ← hcfg]
    simp [emailWorks, and_assoc]
  · rw [hok, ← hcfg]
    simp [and_assoc]
  · intro h
    rw [← hcfg] at h
    rw [hnil (by simpa using h)]
    rfl

/-- Witness for C8: with the five settings set and every call completing,
`mailOk` is `true`; with the confirmation send throwing it is `false`; with
nothing configured it is `false`. -/
theorem email_channel_success_iff_witness :
    (sendEmails {} sampleSubmission smtpOnly).res = .ok true
      ∧ (sendEmails { confirmMail := false } sampleSubmission smtpOnly).res = .ok false
      ∧ (sendEmails {} sampleSubmission coldFlatFile).res = .ok false := by
  obtain ⟨ok1, c1, h1, hiff1, -, -, -⟩ := email_channel_success_iff {} sampleSubmission smtpOnly
  obtain ⟨ok2, c2, h2, hiff2, -, -, -⟩ :=
    email_channel_success_iff { confirmMail := false } sampleSubmission smtpOnly
  obtain ⟨ok3, c3, h3, hiff3, -, -, -⟩ :=
    email_channel_success_iff {} sampleSubmission coldFlatFile
  rw [h1, h2, h3]
  refine ⟨?_, ?_, ?_⟩
  · have : ok1 = true :=
      hiff1.2 ⟨⟨rfl, rfl, rfl, rfl, rfl⟩, rfl, ⟨rfl, rfl, rfl, rfl⟩, rfl, rfl⟩
    rw [this]
  · cases ok2 with
    | false => rfl
    | true => exact absurd (hiff2.1 rfl).2.2.2.2 (by decide)
  · cases ok3 with
    | false => rfl
    | true => exact absurd (hiff3.1 rfl).1.1 (by decide)

/-! ## The visitor counter -/

/-- What `readCount` returns: the stored count if the file can be read and
parsed and the count is truthy, `0` otherwise; it never throws. -/
theorem readCount_apply (o : Outcomes) (w : World) :
    readCount o w =
      ⟨.ok (if o.readFile then
              (match w.counterFile with
                | .json count => count.or (.num 0)
                | _ => .num 0)
            else .num 0), w, []⟩ := by
  cases hr : o.readFile <;> cases hf : w.counterFile <;>
    simp only [readCount, Eff.bind_eq, Eff.pure_eq, Eff.andThen_apply, Eff.tryCatch_apply, hr, hf,
      Eff.check_true, Eff.check_false, Eff.getWorld_apply, Eff.throw_apply, Eff.ret_apply,
      Out.prepend_mk, List.nil_append, List.append_nil, if_true, Bool.false_eq_true, if_false]

theorem JsVal.num_or_zero (c : Int) : (JsVal.num c).or (.num 0) = .num c := by
  by_cases h : c = 0
  · subst h
    rfl
  · simp [JsVal.or, JsVal.truthy, h]

/-- Integers of magnitude up to 2^53 are doubles: rounding leaves them. -/
theorem roundDouble_of_le (x : Int) (h : x.natAbs ≤ 2 ^ 53) : roundDouble x = x := by
  unfold roundDouble
  simp only [h, if_true]

theorem roundDouble_one : roundDouble 1 = 1 := roundDouble_of_le 1 (by norm_num)

/-- Counting stays exact up to 2^53. -/
theorem roundDouble_succ_of_le (c : Int) (h0 : 0 ≤ c) (h1 : c + 1 ≤ 2 ^ 53) :
    roundDouble (c + 1) = c + 1 := by
  apply roundDouble_of_le
  have h2 : ((c + 1).natAbs : Int) = c + 1 := Int.natAbs_of_nonneg (by omega)
  have h3 : ((c + 1).natAbs : Int) ≤ ((2 ^ 53 : Nat) : Int) := by
    rw [h2]
    push_cast
    exact h1
  exact Int.ofNat_le.mp h3

/-- The double nearest to 2^53 + 1 is 2^53 (the tie goes to the even
significand). -/
theorem roundDouble_two_pow_53_succ : roundDouble (2 ^ 53 + 1) = 2 ^ 53 := by
  have hab : ((2 : Int) ^ 53 + 1).natAbs = 2 ^ 53 + 1 := by
    have : ((2 : Int) ^ 53 + 1) = ((2 ^ 53 + 1 : Nat) : Int) := by push_cast
    rw [this, Int.natAbs_ofNat]
  have hlog : Nat.log2 (2 ^ 53 + 1) = 53 := by
    apply Nat.le_antisymm
    · exact Nat.lt_succ_iff.mp ((Nat.log2_lt (by norm_num)).2 (by norm_num))
    · exact (Nat.le_log2 (by norm_num)).2 (by norm_num)
  unfold roundDouble
  simp only [hab, hlog]
  rw [Int.sign_eq_one_of_pos (by norm_num)]
  norm_num

/-- One flat-file request with working I/O from a numeric count `c`: answers
`c + 1` rounded to a double and leaves it in the file. -/
theorem visitorsFile_step (o : Outcomes) (w : World) (c : Int)
    (hfile : w.counterFile = .json (.num c)) (hr : o.readFile = true)
    (hw : o.writeFile = true) :
    Eff.tryCatch (visitorsFile o) visitorsFailed w =
      ⟨.ok ⟨200, .count (.num (roundDouble (c + 1)))⟩,
        { w with counterFile := .json (.num (roundDouble (c + 1))) }, []⟩ := by
  simp only [visitorsFile, writeCount, Eff.bind_eq, Eff.pure_eq, Eff.andThen_apply,
    Eff.tryCatch_apply, readCount_apply, hr, hw, hfile, if_true, JsVal.num_or_zero,
    JsVal.plusOne, Eff.lift_ok, Eff.check_true, Eff.getWorld_apply, Eff.setWorld_apply,
    Eff.ret_apply, Out.prepend_mk, List.nil_append, List.append_nil, JsVal.jsonify]

/-- One flat-file request with working I/O from a count `c` with
`0 ≤ c < 2^53`: answers `c + 1` and leaves `c + 1` in the file. -/
theorem visitorsFile_ok (o : Outcomes) (w : World) (c : Int)
    (hfile : w.counterFile = .json (.num c)) (hr : o.readFile = true)
    (hw : o.writeFile = true) (h0 : 0 ≤ c) (h1 : c + 1 ≤ 2 ^ 53) :
    Eff.tryCatch (visitorsFile o) visitorsFailed w =
      ⟨.ok ⟨200, .count (.num (c + 1))⟩, { w with counterFile := .json (.num (c + 1)) }, []⟩ := by
  rw [visitorsFile_step o w c hfile hr hw, roundDouble_succ_of_le c h0 h1]

/-- The visitor handler in flat-file mode is its flat-file branch. -/
theorem apiVisitors_file (o : Outcomes) (w : World)
    (hmode : (w.dbEnabled && w.models.VisitorCounter) = false) :
    apiVisitors o w = Eff.tryCatch (visitorsFile o) visitorsFailed w := by
  simp only [apiVisitors, Eff.bind_eq, Eff.tryCatch_apply, Eff.andThen_apply, Eff.getWorld_apply,
    hmode, Bool.false_eq_true, if_false, Out.prepend_mk, List.nil_append]
  rcases visitorsFile o w with ⟨r, w1, c1⟩
  cases r <;> rfl

/-- The visitor handler in database mode is its database branch. -/
theorem apiVisitors_db (o : Outcomes) (w : World)
    (hmode : (w.dbEnabled && w.models.VisitorCounter) = true) :
    apiVisitors o w = Eff.tryCatch (visitorsDb o) visitorsFailed w := by
  simp only [apiVisitors, Eff.bind_eq, Eff.tryCatch_apply, Eff.andThen_apply, Eff.getWorld_apply,
    hmode, if_true, Out.prepend_mk, List.nil_append]
  rcases visitorsDb o w with ⟨r, w1, c1⟩
  cases r <;> rfl

/-- Sequential flat-file requests with working I/O from a count `c ≥ 0`, as
long as the count stays within 2^53: request number `k + 1` answers
`c + k + 1`, and after it only the counter file has changed and holds
`c + k + 1`. -/
theorem visitorsRun_from (os : List Outcomes) (w : World) (c : Int) (k : Nat)
    (hmode : w.dbEnabled = false) (hfile : w.counterFile = .json (.num c))
    (hio : ∀ o ∈ os, o.readFile = true ∧ o.writeFile = true) (hk : k < os.length)
    (h0 : 0 ≤ c) (h1 : c + k + 1 ≤ 2 ^ 53) :
    (visitorsRun os w).1[k]? = some (.ok ⟨200, .count (.num (c + k + 1))⟩)
      ∧ (visitorsRun (os.take (k + 1)) w).2
          = { w with counterFile := .json (.num (c + k + 1)) } := by
  induction os generalizing w c k with
  | nil => exact absurd hk (by simp)
  | cons o os ih =>
    have ho := hio o (List.mem_cons_self o os)
    have hstep : apiVisitors o w =
        ⟨.ok ⟨200, .count (.num (c + 1))⟩, { w with counterFile := .json (.num (c + 1)) }, []⟩ := by
      rw [apiVisitors_file o w (by simp [hmode]),
        visitorsFile_ok o w c hfile ho.1 ho.2 h0 (by omega)]
    cases k with
    | zero =>
      simp only [visitorsRun, hstep, List.take_succ_cons, List.take_zero]
      simp
    | succ k =>
      have hk1 : k < os.length := by simpa using hk
      have e : c + 1 + (k : Int) + 1 = c + ((k + 1 : Nat) : Int) + 1 := by push_cast; ring
      have := ih { w with counterFile := .json (.num (c + 1)) } (c + 1) k hmode rfl
        (fun o1 h1 => hio o1 (List.mem_cons_of_mem o h1)) hk1 (by omega)
        (by rw [e]; exact h1)
      simp only [visitorsRun, hstep, List.take_succ_cons, List.getElem?_cons_succ]
      rw [← e]
      exact this

theorem visitorsRun_length (os : List Outcomes) (w : World) :
    (visitorsRun os w).1.length = os.length := by
  induction os generalizing w with
  | nil => rfl
  | cons o os ih => simp [visitorsRun, ih]

theorem visitorsRun_append (os1 os2 : List Outcomes) (w : World) :
    visitorsRun (os1 ++ os2) w
      = ((visitorsRun os1 w).1 ++ (visitorsRun os2 (visitorsRun os1 w).2).1,
          (visitorsRun os2 (visitorsRun os1 w).2).2) := by
  induction os1 generalizing w with
  | nil => rfl
  | cons o os ih =>
    show visitorsRun (o :: (os ++ os2)) w = _
    simp only [visitorsRun, ih]
    rfl

/-- After `n ≤ 2^53` flat-file requests from a cold start the counter file
holds `n`, and the next request answers `n + 1` rounded to a double. -/
theorem visitorsRun_next (n : Nat) (hn : (n : Int) ≤ 2 ^ 53) (w : World)
    (hmode : w.dbEnabled = false) (hfile : w.counterFile = .json (.num 0)) :
    (visitorsRun (List.replicate (n + 1) {}) w).1[n]?
      = some (.ok ⟨200, .count (.num (roundDouble ((n : Int) + 1)))⟩) := by
  have hio : ∀ o ∈ List.replicate n ({} : Outcomes), o.readFile = true ∧ o.writeFile = true := by
    intro o ho
    rw [List.eq_of_mem_replicate ho]
    exact ⟨rfl, rfl⟩
  have hafter : (visitorsRun (List.replicate n {}) w).2.dbEnabled = false
      ∧ (visitorsRun (List.replicate n {}) w).2.counterFile = .json (.num n) := by
    cases n with
    | zero => exact ⟨hmode, hfile⟩
    | succ m =>
      have h := (visitorsRun_from (List.replicate (m + 1) {}) w 0 m hmode hfile hio
        (by simp) (le_refl 0) (by push_cast at hn; omega)).2
      have ht : (List.replicate (m + 1) ({} : Outcomes)).take (m + 1)
          = List.replicate (m + 1) {} := by
        rw [List.take_of_length_le]
        simp
      rw [ht] at h
      rw [h]
      refine ⟨hmode, ?_⟩
      show CounterFile.json (.num (0 + (m : Int) + 1)) = .json (.num ((m + 1 : Nat) : Int))
      congr 2
      push_cast
      ring
  have hlen : (visitorsRun (List.replicate n {}) w).1.length = n := by
    rw [visitorsRun_length, List.length_replicate]
  rw [List.replicate_succ', visitorsRun_append]
  simp only
  rw [List.getElem?_append_right (by omega), hlen, Nat.sub_self]
  simp only [visitorsRun, List.getElem?_cons_zero]
  rw [apiVisitors_file _ _ (by simp [hafter.1]),
    visitorsFile_step _ _ (n : Int) hafter.2 rfl rfl]

/-- C4 (amended): in flat-file mode with file I/O succeeding, starting from a
counter file holding `{ count: 0 }`, the `k`-th of `N` sequential
`GET /api/visitors` requests (`1 ≤ k ≤ N`, `k ≤ 2^53`) answers 200 with
`count = k`, and after it the counter file holds `k`; every request is
answered. -/
theorem visitors_sequential_counts (os : List Outcomes) (w : World) (k : Nat)
    (hmode : w.dbEnabled = false) (hfile : w.counterFile = .json (.num 0))
    (hio : ∀ o ∈ os, o.readFile = true ∧ o.writeFile = true)
    (hk1 : 1 ≤ k) (hk : k ≤ os.length) (hexact : k ≤ 2 ^ 53) :
    (visitorsRun os w).1.length = os.length
      ∧ (visitorsRun os w).1[k - 1]? = some (.ok ⟨200, .count (.num k)⟩)
      ∧ (visitorsRun (os.take k) w).2.counterFile = .json (.num k) := by
  obtain ⟨j, rfl⟩ : ∃ j, k = j + 1 := ⟨k - 1, by omega⟩
  have hb : (0 : Int) + (j : Int) + 1 ≤ 2 ^ 53 := by
    have : ((j + 1 : Nat) : Int) ≤ ((2 ^ 53 : Nat) : Int) := Int.ofNat_le.mpr hexact
    push_cast at this
    omega
  have h := visitorsRun_from os w 0 j hmode hfile hio (by omega) (le_refl 0) hb
  have e : (0 : Int) + (j : Int) + 1 = ((j + 1 : Nat) : Int) := by push_cast; ring
  rw [e] at h
  refine ⟨visitorsRun_length os w, by simpa using h.1, ?_⟩
  rw [h.2]

/-- Witness for C4: three requests from a cold start; the third answers 3. -/
theorem visitors_sequential_counts_witness :
    (visitorsRun [{}, {}, {}] coldFlatFile).1.length = 3
      ∧ (visitorsRun [{}, {}, {}] coldFlatFile).1[2]?
          = some (.ok ⟨200, .count (.num 3)⟩)
      ∧ (visitorsRun [{}, {}, {}] coldFlatFile).2.counterFile = .json (.num 3) :=
  visitors_sequential_counts [{}, {}, {}] coldFlatFile 3 rfl rfl
    (by intro o ho; simp at ho; subst ho; exact ⟨rfl, rfl⟩) (by decide) (by decide)
    (by norm_num)

/-- C4 (counterexample): of 2^53 + 1 sequential flat-file requests from a cold
start with working I/O, the last one (number 2^53 + 1) answers
`count = 2^53`, the same as the one before it, not 2^53 + 1: in doubles
`2^53 + 1` is `2^53`. -/
theorem visitors_count_stops_at_two_pow_53 :
    (visitorsRun (List.replicate (2 ^ 53 + 1) {}) coldFlatFile).1[2 ^ 53]?
        = some (.ok ⟨200, .count (.num (2 ^ 53))⟩)
      ∧ (visitorsRun (List.replicate (2 ^ 53 + 1) {}) coldFlatFile).1[2 ^ 53 - 1]?
        = some (.ok ⟨200, .count (.num (2 ^ 53))⟩)
      ∧ JsVal.num (2 ^ 53) ≠ JsVal.num (2 ^ 53 + 1) := by
  refine ⟨?_, ?_, ?_⟩
  · have h := visitorsRun_next (2 ^ 53) (by norm_num) coldFlatFile rfl rfl
    rw [h]
    have e : (((2 ^ 53 : Nat) : Int) + 1) = (2 : Int) ^ 53 + 1 := by norm_num
    rw [e, roundDouble_two_pow_53_succ]
  · have hio : ∀ o ∈ List.replicate (2 ^ 53 + 1) ({} : Outcomes),
        o.readFile = true ∧ o.writeFile = true := by
      intro o ho
      rw [List.eq_of_mem_replicate ho]
      exact ⟨rfl, rfl⟩
    have e : (0 : Int) + ((2 ^ 53 - 1 : Nat) : Int) + 1 = 2 ^ 53 := by norm_num
    have h := (visitorsRun_from (List.replicate (2 ^ 53 + 1) {}) coldFlatFile 0 (2 ^ 53 - 1)
      rfl rfl hio (by rw [List.length_replicate]; omega) (le_refl 0) (le_of_eq e)).1
    rw [e] at h
    exact h
  · intro h
    injection h with h
    norm_num at h

/-- C5 (counterexample): in flat-file mode with a counter file that cannot be
parsed, the request is not answered with 500: the answer is 200 with
`count = 1`, and the file is overwritten with `{ count: 1 }`. -/
theorem visitors_unparsable_file_answers_200 :
    corruptCounter.dbEnabled = false
      ∧ corruptCounter.counterFile = .invalid
      ∧ (apiVisitors {} corruptCounter).res = .ok ⟨200, .count (.num 1)⟩
      ∧ (apiVisitors {} corruptCounter).res ≠ .ok ⟨500, .error "Failed to update counter"⟩
      ∧ (apiVisitors {} corruptCounter).world.counterFile = .json (.num 1) := by
  refine ⟨rfl, rfl, rfl, ?_, rfl⟩
  intro h
  have h1 : (apiVisitors {} corruptCounter).res = .ok ⟨200, .count (.num 1)⟩ := rfl
  rw [h1] at h
  injection h with h
  injection h with h2 _
  exact absurd h2 (by decide)

/-- C5 (amended): for every `GET /api/visitors` request, (1) in database
mode, when the find-and-increment rejects, the answer is 500 with the error
body and nothing changes; (2) in flat-file mode, when the counter file cannot
be written, the answer is 500 with the error body and nothing changes;
(3) in flat-file mode, when the counter file cannot be read or parsed and the
write succeeds, the count is taken as 0: the answer is 200 with `count = 1`
and the file then holds 1. -/
theorem visitors_failure_responses (o : Outcomes) (w : World) :
    ((w.dbEnabled && w.models.VisitorCounter) = true → o.dbQuery = false →
        apiVisitors o w = ⟨.ok ⟨500, .error "Failed to update counter"⟩, w, []⟩)
    ∧ ((w.dbEnabled && w.models.VisitorCounter) = false → o.writeFile = false →
        apiVisitors o w = ⟨.ok ⟨500, .error "Failed to update counter"⟩, w, []⟩)
    ∧ ((w.dbEnabled && w.models.VisitorCounter) = false →
        (o.readFile = false ∨ w.counterFile = .invalid) → o.writeFile = true →
        apiVisitors o w
          = ⟨.ok ⟨200, .count (.num 1)⟩, { w with counterFile := .json (.num 1) }, []⟩) := by
  refine ⟨fun hmode hq => ?_, fun hmode hw => ?_, fun hmode hread hw => ?_⟩
  · rw [apiVisitors_db o w hmode]
    simp only [visitorsDb, findOneAndUpdate, visitorsFailed, Eff.bind_eq, Eff.pure_eq,
      Eff.andThen_apply, Eff.tryCatch_apply, hq, Eff.check_false, Eff.ret_apply, Out.prepend_mk,
      List.nil_append]
  · rw [apiVisitors_file o w hmode]
    simp only [visitorsFile, writeCount, visitorsFailed, Eff.bind_eq, Eff.pure_eq,
      Eff.andThen_apply, Eff.tryCatch_apply, readCount_apply, hw, Out.prepend_mk,
      List.nil_append]
    generalize (if o.readFile = true then
        (match w.counterFile with
          | .json count => count.or (.num 0)
          | _ => .num 0)
      else JsVal.num 0) = v
    cases hv : v.plusOne <;>
      simp only [Eff.lift_ok, Eff.lift_error, Eff.check_false, Eff.ret_apply, Out.prepend_mk,
        List.nil_append]
  · rw [apiVisitors_file o w hmode]
    have hv : (if o.readFile = true then
        (match w.counterFile with
          | .json count => count.or (.num 0)
          | _ => .num 0)
      else JsVal.num 0) = .num 0 := by
      rcases hread with h | h
      · simp [h]
      · simp [h]
    simp only [visitorsFile, writeCount, Eff.bind_eq, Eff.pure_eq, Eff.andThen_apply,
      Eff.tryCatch_apply, readCount_apply, hv, hw, JsVal.plusOne, Eff.lift_ok, Eff.check_true,
      Eff.getWorld_apply, Eff.setWorld_apply, Eff.ret_apply, Out.prepend_mk, List.nil_append,
      List.append_nil, JsVal.jsonify, zero_add, roundDouble_one]

/-- Witness for C5 (amended): a failing write in flat-file mode gives 500, and
the unparsable file with a working write gives 200 with count 1. -/
theorem visitors_failure_responses_witness :
    apiVisitors { writeFile := false } coldFlatFile
        = ⟨.ok ⟨500, .error "Failed to update counter"⟩, coldFlatFile, []⟩
      ∧ apiVisitors {} corruptCounter
        = ⟨.ok ⟨200, .count (.num 1)⟩,
            { corruptCounter with counterFile := .json (.num 1) }, []⟩ :=
  ⟨(visitors_failure_responses { writeFile := false } coldFlatFile).2.1 rfl rfl,
   (visitors_failure_responses {} corruptCounter).2.2 rfl (Or.inr rfl) rfl⟩


/-! ## Concurrent visitor requests -/

/-- One turn of either request keeps the invariant, when file I/O works and
the counts stay within 2^53. -/
theorem Sys.inv_turn (c : Int) (oa ob : Outcomes) (s : Sys) (pickA : Bool)
    (h0 : 0 ≤ c) (h1 : c + 2 ≤ 2 ^ 53)
    (hioa : oa.readFile = true ∧ oa.writeFile = true)
    (hiob : ob.readFile = true ∧ ob.writeFile = true)
    (h : Sys.inv c s) : Sys.inv c (Sys.turn oa ob s pickA) := by
  obtain ⟨w, a, b⟩ := s
  obtain ⟨hmode, h⟩ := h
  simp only at hmode h
  have hguard : (w.dbEnabled && w.models.VisitorCounter) = false := by simp [hmode]
  have e1 : roundDouble (c + 1) = c + 1 := roundDouble_succ_of_le c h0 (by omega)
  have e2 : roundDouble (c + 1 + 1) = c + 1 + 1 :=
    roundDouble_succ_of_le (c + 1) (by omega) (by omega)
  rcases h with ⟨hf, ha, hb⟩ | ⟨hf, ha, hb⟩ | ⟨hf, ha, hb⟩ | ⟨hf, ha, hb⟩ | ⟨hf, ha, hb⟩ <;>
    subst ha <;> subst hb <;> cases pickA <;>
    simp only [Sys.turn, visitorsTurn, hguard, Bool.false_eq_true, if_false, if_true,
      visitorsFile_step _ w _ hf hioa.1 hioa.2, visitorsFile_step _ w _ hf hiob.1 hiob.2,
      e1, e2] <;>
    refine ⟨hmode, ?_⟩ <;> simp [hf]

/-- Every schedule keeps the invariant. -/
theorem Sys.inv_run (c : Int) (oa ob : Outcomes) (sched : List Bool) (s : Sys)
    (h0 : 0 ≤ c) (h1 : c + 2 ≤ 2 ^ 53)
    (hioa : oa.readFile = true ∧ oa.writeFile = true)
    (hiob : ob.readFile = true ∧ ob.writeFile = true)
    (h : Sys.inv c s) : Sys.inv c (Sys.run oa ob sched s) := by
  induction sched generalizing s with
  | nil => exact h
  | cons p ps ih =>
    exact ih (Sys.turn oa ob s p) (Sys.inv_turn c oa ob s p h0 h1 hioa hiob h)

/-- C9: two concurrent `GET /api/visitors` requests in flat-file mode, counter
file holding 5, file I/O working: for every schedule of their turns after
which both requests have completed, the counter file holds 7 and the two
answers are 6 and 7 (in the order the requests ran); no schedule ends at 6. -/
theorem concurrent_visitors_no_lost_update (oa ob : Outcomes) (sched : List Bool) (w : World)
    (ra rb : Except JsErr Response)
    (hmode : w.dbEnabled = false) (hfile : w.counterFile = .json (.num 5))
    (hioa : oa.readFile = true ∧ oa.writeFile = true)
    (hiob : ob.readFile = true ∧ ob.writeFile = true)
    (hdoneA : (Sys.run oa ob sched ⟨w, .start, .start⟩).reqA = .done ra)
    (hdoneB : (Sys.run oa ob sched ⟨w, .start, .start⟩).reqB = .done rb) :
    (Sys.run oa ob sched ⟨w, .start, .start⟩).world.counterFile = .json (.num 7)
      ∧ ((ra = .ok ⟨200, .count (.num 6)⟩ ∧ rb = .ok ⟨200, .count (.num 7)⟩)
        ∨ (ra = .ok ⟨200, .count (.num 7)⟩ ∧ rb = .ok ⟨200, .count (.num 6)⟩)) := by
  have hinit : Sys.inv 5 ⟨w, .start, .start⟩ := ⟨hmode, Or.inl ⟨hfile, rfl, rfl⟩⟩
  obtain ⟨-, h⟩ := Sys.inv_run 5 oa ob sched _ (by norm_num) (by norm_num) hioa hiob hinit
  rcases h with ⟨hf, ha, hb⟩ | ⟨hf, ha, hb⟩ | ⟨hf, ha, hb⟩ | ⟨hf, ha, hb⟩ | ⟨hf, ha, hb⟩
  · rw [ha] at hdoneA
    cases hdoneA
  · rw [hb] at hdoneB
    cases hdoneB
  · rw [ha] at hdoneA
    cases hdoneA
  · rw [ha] at hdoneA
    rw [hb] at hdoneB
    cases hdoneA
    cases hdoneB
    exact ⟨hf, Or.inl ⟨rfl, rfl⟩⟩
  · rw [ha] at hdoneA
    rw [hb] at hdoneB
    cases hdoneA
    cases hdoneB
    exact ⟨hf, Or.inr ⟨rfl, rfl⟩⟩

/-- Witness for C9: request B runs first, then request A; B is answered 6,
A is answered 7, and the file holds 7. -/
theorem concurrent_visitors_no_lost_update_witness :
    (Sys.run {} {} [false, true]
        ⟨{ coldFlatFile with counterFile := .json (.num 5) }, .start, .start⟩).reqA
        = .done (.ok ⟨200, .count (.num 7)⟩)
      ∧ (Sys.run {} {} [false, true]
        ⟨{ coldFlatFile with counterFile := .json (.num 5) }, .start, .start⟩).reqB
        = .done (.ok ⟨200, .count (.num 6)⟩)
      ∧ (Sys.run {} {} [false, true]
        ⟨{ coldFlatFile with counterFile := .json (.num 5) }, .start, .start⟩).world.counterFile
        = .json (.num 7) :=
  ⟨rfl, rfl,
    (concurrent_visitors_no_lost_update {} {} [false, true]
      { coldFlatFile with counterFile := .json (.num 5) }
      (.ok ⟨200, .count (.num 7)⟩) (.ok ⟨200, .count (.num 6)⟩)
      rfl rfl ⟨rfl, rfl⟩ ⟨rfl, rfl⟩ rfl rfl).1⟩

/-! ## Notes -/

/-- In database mode a successful `GET /api/notes` returns the stored notes,
each exactly once, newest first. -/
theorem apiNotes_db_newest_first (o : Outcomes) (w : World)
    (hmode : (w.dbEnabled && w.models.Note) = true) (hq : o.dbQuery = true) :
    ∃ ns, apiNotes o w = ⟨.ok ⟨200, .notes ns⟩, w, []⟩
      ∧ ns.Perm w.dbNotes
      ∧ ns.Pairwise (fun a b => b.createdAt ≤ a.createdAt) := by
  refine ⟨newestFirst w.dbNotes, ?_, List.perm_insertionSort _ _, ?_⟩
  · simp only [apiNotes, Eff.bind_eq, Eff.pure_eq, Eff.andThen_apply, Eff.tryCatch_apply,
      Eff.getWorld_apply, hmode, hq, if_true, Eff.check_true, Eff.ret_apply, Out.prepend_mk,
      List.nil_append]
  · have : IsTotal Note (fun a b => b.createdAt ≤ a.createdAt) :=
      ⟨fun a b => Nat.le_total b.createdAt a.createdAt⟩
    have : IsTrans Note (fun a b => b.createdAt ≤ a.createdAt) :=
      ⟨fun a b c hab hbc => Nat.le_trans hbc hab⟩
    exact List.sorted_insertionSort (fun a b : Note => b.createdAt ≤ a.createdAt) w.dbNotes

/-- C6 (evaluation at the failing input): in flat-file mode, with a notes file
listing a note created at time 1 before a note created at time 2, the handler
answers 200 with the notes in file order: the older note comes first. -/
theorem notes_flatfile_file_order :
    olderNote.createdAt < newerNote.createdAt
      ∧ apiNotes {} notesOldestFirst
          = ⟨.ok ⟨200, .notes [olderNote, newerNote]⟩, notesOldestFirst, []⟩ :=
  ⟨by decide, rfl⟩

/-! ## Phone normalisation -/

/-- When the stripped number has no `+` at all and the country code is `+`
followed by digits, the normalised address is `+` followed by digits. -/
theorem toE164_plusDigits_of_no_plus (cc phone : String) (hcc : isPlusDigits cc = true)
    (hno : ∀ c ∈ phone.data, c ≠ '+') : isPlusDigits (toE164 cc (toDigits phone)) = true := by
  have hall : ∀ c ∈ (toDigits phone).data, c.isDigit = true := by
    intro c hc
    simp only [toDigits, List.mem_filter, Bool.or_eq_true, beq_iff_eq] at hc
    rcases hc.2 with h | h
    · exact h
    · exact absurd h (hno c hc.1)
  have hstart : startsWithPlus (toDigits phone) = false := by
    unfold startsWithPlus
    cases hd : (toDigits phone).data with
    | nil => rfl
    | cons c rest =>
      have hc : c.isDigit = true := hall c (by rw [hd]; exact List.mem_cons_self c rest)
      show (c == '+') = false
      by_contra hne
      have hce : c = '+' := by simpa using hne
      rw [hce] at hc
      exact absurd hc (by decide)
  simp only [toE164, hstart, Bool.false_eq_true, if_false]
  unfold isPlusDigits at hcc ⊢
  rw [String.data_append]
  cases hd : cc.data with
  | nil => rw [hd] at hcc; exact absurd hcc (by simp)
  | cons c rest =>
    rw [hd] at hcc
    simp only [Bool.and_eq_true, beq_iff_eq, List.all_eq_true] at hcc
    simp only [List.cons_append, Bool.and_eq_true, beq_iff_eq, List.all_eq_true, List.mem_append]
    refine ⟨hcc.1, ?_⟩
    rintro x (hx | hx)
    · exact hcc.2 x hx
    · exact hall x hx

/-- C7 (evaluation at the failing input): for the phone `"12+34"` and the
default country code `"+91"`, the stripped number keeps the inner `+`, and
the normalised address is `"+9112+34"`, which is not `+` followed only by
digits. -/
theorem toE164_keeps_inner_plus :
    toDigits "12+34" = "12+34"
      ∧ toE164 "+91" (toDigits "12+34") = "+9112+34"
      ∧ isPlusDigits (toE164 "+91" (toDigits "12+34")) = false := by
  decide

/-! ## Port selection -/

/-- With a numeric port (a non-negative integer below 2^53, as every port
number is) and every port in use, the attempts are `p, p + 1, p + 2, ...`. -/
theorem startServer_numeric (listen : JsVal → ListenResult)
    (hbusy : ∀ q, listen q = .addrInUse) (fuel : Nat) (p : Int)
    (h0 : 0 ≤ p) (h1 : p + fuel ≤ 2 ^ 53) :
    startServer listen fuel (.num p)
      = (List.range fuel).map (fun (k : Nat) => JsVal.num (p + (k : Int))) := by
  induction fuel generalizing p with
  | zero => rfl
  | succ n ih =>
    have hb : p + 1 + (n : Int) ≤ 2 ^ 53 := by push_cast at h1; omega
    rw [startServer, hbusy, List.range_succ_eq_map]
    simp only [JsVal.plusOne, roundDouble_succ_of_le p h0 (by omega), ih (p + 1) (by omega) hb,
      List.map_cons, List.map_map]
    refine congrArg₂ List.cons (by simp) ?_
    apply List.map_congr_left
    intro k _
    simp only [Function.comp, Nat.cast_succ]
    congr 1
    ring

/-- C10 (evaluation at the failing input): with `PORT=3000` in the environment
the configured port is the string `"3000"`, and when it is in use the next
port `startServer` attempts is the string `"30001"` (`"3000" + 1`), while the
default port, the number 3000, is followed by 3001. -/
theorem startServer_env_port_concatenates :
    PORT { PORT := some "3000" } = .str "3000"
      ∧ startServer onlyEnvPortBusy 5 (PORT { PORT := some "3000" })
          = [.str "3000", .str "30001"]
      ∧ (JsVal.str "3000").plusOne = .ok (.str "30001")
      ∧ (PORT {}).plusOne = .ok (.num 3001) :=
  ⟨rfl, rfl, rfl, rfl⟩

end Portfolio
